import Mathlib

/-!
Shallow embedding of the token-revocation registry of byow-user-service
(`infrastructure/jwt` package, `BlacklistService`).

Modelling choices:
* `time.Time` is modelled as `Int` (a point on a discrete timeline); the
  implicit `time.Now()` calls inside a method are modelled by one explicit
  `now : Int` argument per call.
* The Mongo collection `token_blacklist` is modelled as a `List TokenBlacklist`
  of its documents, in insertion order.  `NewBlacklistService` creates a unique
  index on `jti`, so `InsertOne` fails with a duplicate-key error when a
  document with the same `jti` is already present.
* Store unavailability (network failure, timeout) is modelled by an explicit
  `avail : Bool` flag per store operation: when `false` the operation fails
  with `DbErr.unavailable`, standing for any driver error other than
  `mongo.ErrNoDocuments`.
* The in-process cache `map[string]time.Time` is modelled as an association
  list `List (String × Int)` with map-assignment (overwrite), lookup and
  delete.  The `sync.RWMutex` only serialises access and has no sequential
  semantics, so it is not modelled.
-/

/-- The `TokenBlacklist` struct: one document of the `token_blacklist`
collection. -/
structure TokenBlacklist where
  jti : String
  userEmail : String
  expiresAt : Int
  createdAt : Int
deriving DecidableEq, Repr

/-- Errors a modelled store operation can return. -/
inductive DbErr where
  /-- The unique-index violation returned by `InsertOne` when a document with
  the same `jti` already exists. -/
  | duplicateKey
  /-- `mongo.ErrNoDocuments`: the clean not-found result of `FindOne`. -/
  | noDocuments
  /-- Any other driver error (store unreachable, timeout, ...). -/
  | unavailable
deriving DecidableEq, Repr

/-- The mutable state of one `BlacklistService` instance: the durable
collection and the in-process cache. -/
structure BlacklistState where
  db : List TokenBlacklist
  cache : List (String × Int)
deriving DecidableEq, Repr

/-- Cache read: `expiresAt, exists := bs.cache[jti]`. -/
def cacheGet (c : List (String × Int)) (k : String) : Option Int :=
  (c.find? (fun p => p.1 == k)).map (fun p => p.2)

/-- Cache delete: `delete(bs.cache, jti)`. -/
def cacheDel (c : List (String × Int)) (k : String) : List (String × Int) :=
  c.filter (fun p => p.1 != k)

/-- Cache write with overwrite: `bs.cache[jti] = expiresAt`. -/
def cachePut (c : List (String × Int)) (k : String) (v : Int) :
    List (String × Int) :=
  cacheDel c k ++ [(k, v)]

/-- `collection.InsertOne` under the unique `jti` index created by
`NewBlacklistService`: fails when unavailable, fails with a duplicate-key
error when a document with the same `jti` exists, otherwise appends the
document. -/
def insertOne (avail : Bool) (db : List TokenBlacklist) (rec : TokenBlacklist) :
    Except DbErr (List TokenBlacklist) :=
  if !avail then Except.error DbErr.unavailable
  else if db.any (fun r => r.jti == rec.jti) then Except.error DbErr.duplicateKey
  else Except.ok (db ++ [rec])

/-- `collection.FindOne(ctx, bson.M{"jti": jti, "expires_at": bson.M{"$gt": now}})`:
fails when unavailable, returns `mongo.ErrNoDocuments` when no matching
document exists, otherwise returns the first document whose `jti` matches and
whose `expires_at` is strictly in the future. -/
def findOneNonExpired (avail : Bool) (db : List TokenBlacklist) (jti : String)
    (now : Int) : Except DbErr TokenBlacklist :=
  if !avail then Except.error DbErr.unavailable
  else
    match db.find? (fun r => r.jti == jti && decide (now < r.expiresAt)) with
    | some r => Except.ok r
    | none => Except.error DbErr.noDocuments

/-- The `blacklistEntry` value built inside `BlacklistToken`
(`CreatedAt: time.Now()`). -/
def mkEntry (jti userEmail : String) (expiresAt now : Int) : TokenBlacklist :=
  { jti := jti, userEmail := userEmail, expiresAt := expiresAt, createdAt := now }

/-- `BlacklistService.BlacklistToken`: insert the entry into the database; on
error return it (the cache untouched); on success write the cache and return
nil. -/
def BlacklistToken (avail : Bool) (s : BlacklistState) (jti userEmail : String)
    (expiresAt now : Int) : Except DbErr Unit × BlacklistState :=
  match insertOne avail s.db (mkEntry jti userEmail expiresAt now) with
  | Except.error e => (Except.error e, s)
  | Except.ok db' =>
      (Except.ok (), { db := db', cache := cachePut s.cache jti expiresAt })

/-- `BlacklistService.IsTokenBlacklisted`: cache hit with future expiry
returns true; cache hit with non-future expiry deletes the entry and returns
false; cache miss falls back to `FindOne`, returning false on any error and
caching the found document's expiry on success. -/
def IsTokenBlacklisted (avail : Bool) (s : BlacklistState) (jti : String)
    (now : Int) : Bool × BlacklistState :=
  match cacheGet s.cache jti with
  | some expiresAt =>
      if now < expiresAt then (true, s)
      else (false, { s with cache := cacheDel s.cache jti })
  | none =>
      match findOneNonExpired avail s.db jti now with
      | Except.error _ => (false, s)
      | Except.ok entry =>
          (true, { s with cache := cachePut s.cache jti entry.expiresAt })

/-- The synthetic id `fmt.Sprintf("user_%s_%d", userEmail, time.Now().Unix())`
built inside `BlacklistAllUserTokens`. -/
def syntheticJti (userEmail : String) (now : Int) : String :=
  "user_" ++ userEmail ++ "_" ++ toString now

/-- `BlacklistService.BlacklistAllUserTokens`: insert one synthetic entry into
the database only; the cache is never touched. -/
def BlacklistAllUserTokens (avail : Bool) (s : BlacklistState)
    (userEmail : String) (expiresAt now : Int) :
    Except DbErr Unit × BlacklistState :=
  match insertOne avail s.db (mkEntry (syntheticJti userEmail now) userEmail expiresAt now) with
  | Except.error e => (Except.error e, s)
  | Except.ok db' => (Except.ok (), { s with db := db' })

/-- `BlacklistService.CleanupExpiredTokens`: delete every cache entry whose
expiry is strictly before `now` (`now.After(expiresAt)`). -/
def CleanupExpiredTokens (s : BlacklistState) (now : Int) : BlacklistState :=
  { s with cache := s.cache.filter (fun p => !decide (now > p.2)) }

/-! ### Cache lemmas -/

/-- After deleting key `k`, no entry with key `k` can be found. -/
theorem find?_cacheDel_self (c : List (String × Int)) (k : String) :
    (cacheDel c k).find? (fun p => p.1 == k) = none := by
  rw [List.find?_eq_none]
  intro x hx
  simp only [cacheDel, List.mem_filter, bne_iff_ne, ne_eq] at hx
  simp [hx.2]

/-- Deleting key `k` makes `cacheGet` miss on `k`. -/
theorem cacheGet_cacheDel_self (c : List (String × Int)) (k : String) :
    cacheGet (cacheDel c k) k = none := by
  simp [cacheGet, find?_cacheDel_self]

/-- Writing key `k` makes `cacheGet` return the written value. -/
theorem cacheGet_cachePut_self (c : List (String × Int)) (k : String) (v : Int) :
    cacheGet (cachePut c k v) k = some v := by
  simp [cacheGet, cachePut, List.find?_append, find?_cacheDel_self]

/-- Inversion of a successful `BlacklistToken`: the store was available, no
record with the id pre-existed, the document was appended, and the cache was
written. -/
theorem blacklistToken_ok_inv (avail : Bool) (s s' : BlacklistState)
    (jti userEmail : String) (expiresAt now : Int)
    (h : BlacklistToken avail s jti userEmail expiresAt now = (Except.ok (), s')) :
    avail = true ∧ s.db.any (fun r => r.jti == jti) = false ∧
    s'.db = s.db ++ [mkEntry jti userEmail expiresAt now] ∧
    s'.cache = cachePut s.cache jti expiresAt := by
  cases avail with
  | false => simp [BlacklistToken, insertOne] at h
  | true =>
    cases hany : s.db.any (fun r => r.jti == (mkEntry jti userEmail expiresAt now).jti) with
    | true => simp [BlacklistToken, insertOne, hany] at h
    | false =>
      simp [BlacklistToken, insertOne, hany] at h
      refine ⟨rfl, by simpa [mkEntry] using hany, ?_, ?_⟩ <;> simp [← h]

/-- A `BlacklistToken` call on an available store with a fresh id succeeds and
produces the expected state. -/
theorem blacklistToken_fresh (s : BlacklistState) (jti userEmail : String)
    (expiresAt now : Int)
    (hfresh : s.db.any (fun r => r.jti == jti) = false) :
    BlacklistToken true s jti userEmail expiresAt now =
      (Except.ok (), { db := s.db ++ [mkEntry jti userEmail expiresAt now],
                       cache := cachePut s.cache jti expiresAt }) := by
  simp [BlacklistToken, insertOne, mkEntry, hfresh]

/-! ### Claim theorems -/

/-- C1 (amended): for every id present in the cache with an `expiresAt` that
is not in the future, `IsTokenBlacklisted` deletes that cache entry and
returns false immediately, without performing the Durable Store fallback
query (the result and final state are the same for any store availability and
any store contents). -/
theorem C1_expired_cache_hit_returns_false (avail : Bool) (s : BlacklistState)
    (jti : String) (e now : Int)
    (hget : cacheGet s.cache jti = some e) (hexp : ¬ now < e) :
    IsTokenBlacklisted avail s jti now =
      (false, { s with cache := cacheDel s.cache jti }) := by
  simp [IsTokenBlacklisted, hget, hexp]

/-- C1 counterexample: a state whose cache holds `tok-1` already expired at
time 10 while the Durable Store holds a non-expired record for `tok-1`; the
fallback lookup would answer true, but `IsTokenBlacklisted` answers false, so
its result does not equal the result of the fallback lookup. -/
theorem C1_counterexample :
    cacheGet [("tok-1", (5 : Int))] "tok-1" = some 5 ∧
    ¬ ((10 : Int) < 5) ∧
    findOneNonExpired true [mkEntry "tok-1" "u@example.com" 20 0] "tok-1" 10 =
      Except.ok (mkEntry "tok-1" "u@example.com" 20 0) ∧
    (IsTokenBlacklisted true
        { db := [mkEntry "tok-1" "u@example.com" 20 0],
          cache := [("tok-1", 5)] } "tok-1" 10).1 = false :=
  ⟨rfl, by decide, rfl, rfl⟩

/-- C1 witness: the amended theorem applied at the counterexample state. -/
theorem C1_witness :
    IsTokenBlacklisted true
        { db := [mkEntry "tok-1" "u@example.com" 20 0],
          cache := [("tok-1", 5)] } "tok-1" 10 =
      (false, { db := [mkEntry "tok-1" "u@example.com" 20 0], cache := [] }) :=
  C1_expired_cache_hit_returns_false true
    { db := [mkEntry "tok-1" "u@example.com" 20 0], cache := [("tok-1", 5)] }
    "tok-1" 5 10 rfl (by decide)

/-- C2 (amended): re-invoking revoke with an id already recorded in the
Durable Store does not overwrite: the insert hits the unique `jti` index,
`BlacklistToken` returns that duplicate-key error, and both the store and the
cache are left unchanged. -/
theorem C2_duplicate_revoke_fails (s : BlacklistState) (jti userEmail : String)
    (expiresAt now : Int)
    (hdup : s.db.any (fun r => r.jti == jti) = true) :
    BlacklistToken true s jti userEmail expiresAt now =
      (Except.error DbErr.duplicateKey, s) := by
  simp [BlacklistToken, insertOne, mkEntry, hdup]

/-- C2 counterexample: after a first successful revoke of `tok-1`, a second
revoke of the same id does not succeed — it returns the duplicate-key error
and changes nothing, rather than overwriting last-write-wins. -/
theorem C2_counterexample :
    (BlacklistToken true { db := [], cache := [] } "tok-1" "u@example.com" 30 0).2 =
      { db := [mkEntry "tok-1" "u@example.com" 30 0], cache := [("tok-1", 30)] } ∧
    (BlacklistToken true
        { db := [mkEntry "tok-1" "u@example.com" 30 0], cache := [("tok-1", 30)] }
        "tok-1" "u@example.com" 40 10).1 = Except.error DbErr.duplicateKey ∧
    (BlacklistToken true
        { db := [mkEntry "tok-1" "u@example.com" 30 0], cache := [("tok-1", 30)] }
        "tok-1" "u@example.com" 40 10).2 =
      { db := [mkEntry "tok-1" "u@example.com" 30 0], cache := [("tok-1", 30)] } :=
  ⟨rfl, rfl, rfl⟩

/-- C2 witness: the amended theorem applied at the counterexample state. -/
theorem C2_witness :
    BlacklistToken true
        { db := [mkEntry "tok-1" "u@example.com" 30 0], cache := [("tok-1", 30)] }
        "tok-1" "u@example.com" 40 10 =
      (Except.error DbErr.duplicateKey,
        { db := [mkEntry "tok-1" "u@example.com" 30 0], cache := [("tok-1", 30)] }) :=
  C2_duplicate_revoke_fails
    { db := [mkEntry "tok-1" "u@example.com" 30 0], cache := [("tok-1", 30)] }
    "tok-1" "u@example.com" 40 10 rfl

/-- C3: after a successful `BlacklistToken` of an id with a future
`expiresAt`, an immediately subsequent `IsTokenBlacklisted` of that id on the
same cache instance returns true with the state unchanged, for any store
availability — so without consulting the Durable Store. -/
theorem C3_revoke_then_isRevoked_true (avail avail2 : Bool)
    (s s' : BlacklistState) (jti userEmail : String) (expiresAt now : Int)
    (hfut : now < expiresAt)
    (hok : BlacklistToken avail s jti userEmail expiresAt now = (Except.ok (), s')) :
    IsTokenBlacklisted avail2 s' jti now = (true, s') := by
  have hc := (blacklistToken_ok_inv avail s s' jti userEmail expiresAt now hok).2.2.2
  simp [IsTokenBlacklisted, hc, cacheGet_cachePut_self, hfut]

/-- C3 witness: revoke `tok-1` expiring at 100 at time 0, then check it at
time 0 with the store unavailable. -/
theorem C3_witness :
    IsTokenBlacklisted false
        { db := [mkEntry "tok-1" "u@example.com" 100 0], cache := [("tok-1", 100)] }
        "tok-1" 0 =
      (true, { db := [mkEntry "tok-1" "u@example.com" 100 0], cache := [("tok-1", 100)] }) :=
  C3_revoke_then_isRevoked_true true false { db := [], cache := [] }
    { db := [mkEntry "tok-1" "u@example.com" 100 0], cache := [("tok-1", 100)] }
    "tok-1" "u@example.com" 100 0 (by decide) rfl

/-- C4: `BlacklistToken` returns an error exactly when the Durable Store
insert fails, and it propagates that same error to the caller. -/
theorem C4_revoke_error_iff_insert_error (avail : Bool) (s : BlacklistState)
    (jti userEmail : String) (expiresAt now : Int) (e : DbErr) :
    (BlacklistToken avail s jti userEmail expiresAt now).1 = Except.error e ↔
      insertOne avail s.db (mkEntry jti userEmail expiresAt now) = Except.error e := by
  cases hins : insertOne avail s.db (mkEntry jti userEmail expiresAt now) with
  | error e0 => simp [BlacklistToken, hins]
  | ok db' => simp [BlacklistToken, hins]

/-- C4 witness: with the store unavailable, the revoke error is exactly the
insert error. -/
theorem C4_witness :
    (BlacklistToken false { db := [], cache := [] } "tok-1" "u@example.com" 30 0).1 =
        Except.error DbErr.unavailable ↔
      insertOne false [] (mkEntry "tok-1" "u@example.com" 30 0) =
        Except.error DbErr.unavailable :=
  C4_revoke_error_iff_insert_error false { db := [], cache := [] }
    "tok-1" "u@example.com" 30 0 DbErr.unavailable

/-- C5: on a cache miss where the Durable Store holds a non-expired record,
`IsTokenBlacklisted` returns true and populates the cache with that record's
expiry, so a later check of the same id returns true from the cache alone
(store unavailable) for as long as that expiry is in the future. -/
theorem C5_fallback_populates_cache (s : BlacklistState) (jti : String)
    (now : Int) (r : TokenBlacklist)
    (hmiss : cacheGet s.cache jti = none)
    (hfind : findOneNonExpired true s.db jti now = Except.ok r) :
    (IsTokenBlacklisted true s jti now).1 = true ∧
    cacheGet (IsTokenBlacklisted true s jti now).2.cache jti = some r.expiresAt ∧
    ∀ now2 : Int, now2 < r.expiresAt →
      (IsTokenBlacklisted false (IsTokenBlacklisted true s jti now).2 jti now2).1 = true := by
  have h1 : IsTokenBlacklisted true s jti now =
      (true, { s with cache := cachePut s.cache jti r.expiresAt }) := by
    simp [IsTokenBlacklisted, hmiss, hfind]
  refine ⟨by simp [h1], by simp [h1, cacheGet_cachePut_self], ?_⟩
  intro now2 h2
  rw [h1]
  simp [IsTokenBlacklisted, cacheGet_cachePut_self, h2]

/-- C5 witness: store seeded with `tok-1` expiring at 20, empty cache, checked
at time 10; the second check at time 10 with the store down still answers
true. -/
theorem C5_witness :
    (IsTokenBlacklisted true
        { db := [mkEntry "tok-1" "u@example.com" 20 0], cache := [] } "tok-1" 10).1 = true ∧
    cacheGet (IsTokenBlacklisted true
        { db := [mkEntry "tok-1" "u@example.com" 20 0], cache := [] } "tok-1" 10).2.cache
        "tok-1" = some 20 ∧
    (10 : Int) < 20 ∧
    (IsTokenBlacklisted false
        (IsTokenBlacklisted true
          { db := [mkEntry "tok-1" "u@example.com" 20 0], cache := [] } "tok-1" 10).2
        "tok-1" 10).1 = true := by
  have h := C5_fallback_populates_cache
    { db := [mkEntry "tok-1" "u@example.com" 20 0], cache := [] } "tok-1" 10
    (mkEntry "tok-1" "u@example.com" 20 0) rfl rfl
  exact ⟨h.1, h.2.1, by decide, h.2.2 10 (by decide)⟩

/-- C6: on a cache miss, any failure of the Durable Store fallback query
(unavailability or the clean not-found) makes `IsTokenBlacklisted` return
false with the state unchanged — the error is not propagated. -/
theorem C6_fallback_error_returns_false (avail : Bool) (s : BlacklistState)
    (jti : String) (now : Int) (e : DbErr)
    (hmiss : cacheGet s.cache jti = none)
    (herr : findOneNonExpired avail s.db jti now = Except.error e) :
    IsTokenBlacklisted avail s jti now = (false, s) := by
  simp [IsTokenBlacklisted, hmiss, herr]

/-- C6 witness: empty cache, store unavailable: the check answers false. -/
theorem C6_witness :
    IsTokenBlacklisted false
        { db := [mkEntry "tok-1" "u@example.com" 20 0], cache := [] } "tok-1" 10 =
      (false, { db := [mkEntry "tok-1" "u@example.com" 20 0], cache := [] }) :=
  C6_fallback_error_returns_false false
    { db := [mkEntry "tok-1" "u@example.com" 20 0], cache := [] }
    "tok-1" 10 DbErr.unavailable rfl rfl

/-- C7: one `CleanupExpiredTokens` sweep at time `now` removes exactly the
cache entries whose expiry is before `now` and keeps every other entry, never
touches the database, and running the sweep twice at the same time equals
running it once. -/
theorem C7_cleanup_sweep_exact_and_idempotent (s : BlacklistState) (now : Int) :
    (∀ p : String × Int,
        p ∈ (CleanupExpiredTokens s now).cache ↔ p ∈ s.cache ∧ ¬ p.2 < now) ∧
    (CleanupExpiredTokens s now).db = s.db ∧
    CleanupExpiredTokens (CleanupExpiredTokens s now) now =
      CleanupExpiredTokens s now := by
  refine ⟨?_, rfl, ?_⟩
  · intro p
    simp [CleanupExpiredTokens]
  · simp [CleanupExpiredTokens, List.filter_filter]

/-- C7 witness: a sweep at time 10 removes the entry expired at 5, keeps the
ones expiring at 10 and 20, and a second sweep changes nothing. -/
theorem C7_witness :
    (("a", (5 : Int)) ∈
        (CleanupExpiredTokens
          { db := [], cache := [("a", 5), ("b", 10), ("c", 20)] } 10).cache ↔
      ("a", (5 : Int)) ∈ [("a", (5 : Int)), ("b", 10), ("c", 20)] ∧
        ¬ (5 : Int) < 10) ∧
    CleanupExpiredTokens
        (CleanupExpiredTokens { db := [], cache := [("a", 5), ("b", 10), ("c", 20)] } 10) 10 =
      CleanupExpiredTokens { db := [], cache := [("a", 5), ("b", 10), ("c", 20)] } 10 := by
  have h := C7_cleanup_sweep_exact_and_idempotent
    { db := [], cache := [("a", 5), ("b", 10), ("c", 20)] } 10
  exact ⟨h.1 ("a", 5), h.2.2⟩

/-- C8: revoking an id whose `expiresAt` is already past still succeeds when
the durable write succeeds (store available, fresh id), and the following
checks of that id return false — the first from the expired cache entry, the
second through the fallback — for any store availability, with no error
path. -/
theorem C8_expired_revoke_still_succeeds (avail1 avail2 : Bool)
    (s : BlacklistState) (jti userEmail : String) (expiresAt now : Int)
    (hpast : expiresAt < now)
    (hfresh : s.db.any (fun r => r.jti == jti) = false) :
    (BlacklistToken true s jti userEmail expiresAt now).1 = Except.ok () ∧
    (IsTokenBlacklisted avail1 (BlacklistToken true s jti userEmail expiresAt now).2
        jti now).1 = false ∧
    (IsTokenBlacklisted avail2
        (IsTokenBlacklisted avail1 (BlacklistToken true s jti userEmail expiresAt now).2
            jti now).2 jti now).1 = false := by
  have hbt := blacklistToken_fresh s jti userEmail expiresAt now hfresh
  have hnotlt : ¬ now < expiresAt := by omega
  have h1 : IsTokenBlacklisted avail1
      { db := s.db ++ [mkEntry jti userEmail expiresAt now],
        cache := cachePut s.cache jti expiresAt } jti now =
      (false, { db := s.db ++ [mkEntry jti userEmail expiresAt now],
                cache := cacheDel (cachePut s.cache jti expiresAt) jti }) := by
    simp [IsTokenBlacklisted, cacheGet_cachePut_self, hnotlt]
  have hfind : s.db.find? (fun r => r.jti == jti && decide (now < r.expiresAt)) = none := by
    rw [List.find?_eq_none]
    intro x hx
    have hne := (List.any_eq_false.mp hfresh) x hx
    simp_all
  have hex : ∃ e, findOneNonExpired avail2
      (s.db ++ [mkEntry jti userEmail expiresAt now]) jti now = Except.error e := by
    cases avail2 with
    | false => exact ⟨DbErr.unavailable, by simp [findOneNonExpired]⟩
    | true =>
      refine ⟨DbErr.noDocuments, ?_⟩
      simp [findOneNonExpired, List.find?_append, hfind, mkEntry, hnotlt]
  obtain ⟨e, he⟩ := hex
  have h2 : IsTokenBlacklisted avail2
      { db := s.db ++ [mkEntry jti userEmail expiresAt now],
        cache := cacheDel (cachePut s.cache jti expiresAt) jti } jti now =
      (false, { db := s.db ++ [mkEntry jti userEmail expiresAt now],
                cache := cacheDel (cachePut s.cache jti expiresAt) jti }) := by
    simp [IsTokenBlacklisted, cacheGet_cacheDel_self, he]
  simp [hbt, h1, h2]

/-- C8 witness: revoke `tok-1` already expired at time 0 checked at time 10;
the revoke succeeds and both following checks answer false. -/
theorem C8_witness :
    (0 : Int) < 10 ∧
    ([] : List TokenBlacklist).any (fun r => r.jti == "tok-1") = false ∧
    (BlacklistToken true { db := [], cache := [] } "tok-1" "u@example.com" 0 10).1 =
      Except.ok () ∧
    (IsTokenBlacklisted true
        (BlacklistToken true { db := [], cache := [] } "tok-1" "u@example.com" 0 10).2
        "tok-1" 10).1 = false ∧
    (IsTokenBlacklisted false
        (IsTokenBlacklisted true
          (BlacklistToken true { db := [], cache := [] } "tok-1" "u@example.com" 0 10).2
          "tok-1" 10).2 "tok-1" 10).1 = false := by
  have h := C8_expired_revoke_still_succeeds true false
    { db := [], cache := [] } "tok-1" "u@example.com" 0 10 (by decide) rfl
  exact ⟨by decide, rfl, h.1, h.2.1, h.2.2⟩

/-- C9: when the Durable Store insert inside `BlacklistToken` fails, the
whole service state — in particular the cache — is returned unchanged: the
error return happens before any cache write. -/
theorem C9_revoke_error_leaves_state_unchanged (avail : Bool)
    (s : BlacklistState) (jti userEmail : String) (expiresAt now : Int)
    (e : DbErr)
    (herr : (BlacklistToken avail s jti userEmail expiresAt now).1 = Except.error e) :
    (BlacklistToken avail s jti userEmail expiresAt now).2 = s := by
  cases hins : insertOne avail s.db (mkEntry jti userEmail expiresAt now) with
  | error e0 => simp [BlacklistToken, hins]
  | ok db' => simp [BlacklistToken, hins] at herr

/-- C9 witness: an unavailable store fails the revoke and leaves the state,
including a pre-existing cache entry, untouched. -/
theorem C9_witness :
    (BlacklistToken false { db := [], cache := [("x", 3)] }
        "tok-1" "u@example.com" 30 0).1 = Except.error DbErr.unavailable ∧
    (BlacklistToken false { db := [], cache := [("x", 3)] }
        "tok-1" "u@example.com" 30 0).2 = { db := [], cache := [("x", 3)] } :=
  ⟨rfl, C9_revoke_error_leaves_state_unchanged false
    { db := [], cache := [("x", 3)] } "tok-1" "u@example.com" 30 0
    DbErr.unavailable rfl⟩

/-- C10: `BlacklistAllUserTokens` never modifies the cache; on success it
only appends its synthetic `user_<subject>_<unixSeconds>` record to the
store, so when that synthetic id is not cached a subsequent check of it with
the store unavailable answers false — it can only be answered via the
Durable Store fallback. -/
theorem C10_bulk_revoke_touches_store_only (avail : Bool) (s : BlacklistState)
    (userEmail : String) (expiresAt now : Int) :
    (BlacklistAllUserTokens avail s userEmail expiresAt now).2.cache = s.cache ∧
    ((BlacklistAllUserTokens avail s userEmail expiresAt now).1 = Except.ok () →
      (BlacklistAllUserTokens avail s userEmail expiresAt now).2.db =
        s.db ++ [mkEntry (syntheticJti userEmail now) userEmail expiresAt now]) ∧
    (cacheGet s.cache (syntheticJti userEmail now) = none →
      (IsTokenBlacklisted false (BlacklistAllUserTokens avail s userEmail expiresAt now).2
          (syntheticJti userEmail now) now).1 = false) := by
  cases hins : insertOne avail s.db
      (mkEntry (syntheticJti userEmail now) userEmail expiresAt now) with
  | error e =>
    have hst : (BlacklistAllUserTokens avail s userEmail expiresAt now).2 = s := by
      simp [BlacklistAllUserTokens, hins]
    refine ⟨by simp [hst], by simp [BlacklistAllUserTokens, hins], ?_⟩
    intro hmiss
    rw [hst]
    simp [IsTokenBlacklisted, hmiss, findOneNonExpired]
  | ok db' =>
    have hdb : db' = s.db ++ [mkEntry (syntheticJti userEmail now) userEmail expiresAt now] := by
      unfold insertOne at hins
      cases avail with
      | false => simp at hins
      | true =>
        cases hany : s.db.any (fun r =>
            r.jti == (mkEntry (syntheticJti userEmail now) userEmail expiresAt now).jti) with
        | true => simp [hany] at hins
        | false =>
          simp [hany] at hins
          exact hins.symm
    have hst : (BlacklistAllUserTokens avail s userEmail expiresAt now).2 =
        { db := db', cache := s.cache } := by
      simp [BlacklistAllUserTokens, hins]
    refine ⟨by simp [hst], by simp [hst, hdb], ?_⟩
    intro hmiss
    rw [hst]
    simp [IsTokenBlacklisted, hmiss, findOneNonExpired]

/-- C10 witness: bulk-revoking subject `u` at time 0 leaves the empty cache
empty, stores only the synthetic record, and a store-down check of the
synthetic id answers false. -/
theorem C10_witness :
    (BlacklistAllUserTokens true { db := [], cache := [] } "u" 30 0).2.cache = [] ∧
    (BlacklistAllUserTokens true { db := [], cache := [] } "u" 30 0).2.db =
      [mkEntry (syntheticJti "u" 0) "u" 30 0] ∧
    (IsTokenBlacklisted false
        (BlacklistAllUserTokens true { db := [], cache := [] } "u" 30 0).2
        (syntheticJti "u" 0) 0).1 = false := by
  have h := C10_bulk_revoke_touches_store_only true { db := [], cache := [] } "u" 30 0
  exact ⟨h.1, by simpa using h.2.1 rfl, h.2.2 rfl⟩
